import Mathlib

/-!
Verification development for the consumer-credit XGBoost scoring/monitoring
module (`model.py`).  The module is shallowly embedded: pandas data frames
become column lists plus association-list rows, floats become rationals, and
the external collaborators (the pickled model, the SHAP explainer, the
sklearn/scipy/aequitas statistics routines) become abstract function
parameters, mirroring the specification's scoping (the development states how
they are invoked and how their results are post-processed, not their internal
numerics).  The in-repository logic — feature derivation, thresholding,
report assembly, confusion-matrix shaping, bias-table post-processing, drift
plumbing and SHAP aggregation — is translated line by line from the source.
-/

namespace ConsumerCredit

/-- Cell values of a data frame / output record.  `na` models a missing value
(pandas NaN); `null` models Python `None` (produced only by the explicit
`where(notnull, None)` replacement in the bias post-processing). -/
inductive Value where
  | str : String → Value
  | num : ℚ → Value
  | na : Value
  | null : Value
  deriving DecidableEq, Repr

/-- A record / data-frame row: an association list from column names to
values (one entry per column of the owning frame). -/
abbrev Row := List (String × Value)

/-- Look a key up in an association list; a missing key yields `Value.na`. -/
def assocGet : Row → String → Value
  | [], _ => Value.na
  | p :: ps, c => if p.1 = c then p.2 else assocGet ps c

/-- Set a key in an association list, replacing the first occurrence in place
or appending a fresh entry at the end — the update discipline of both a
pandas column assignment and a Python dict insertion. -/
def assocSet {β : Type} : List (String × β) → String → β → List (String × β)
  | [], c, v => [(c, v)]
  | p :: ps, c, v => if p.1 = c then (c, v) :: ps else p :: assocSet ps c v

/-- A pandas data frame: an ordered list of column names and the rows. -/
structure DataFrame where
  cols : List String
  rows : List Row
  deriving DecidableEq, Repr

/-- Column assignment `df[c] = f(df)` where the assigned vector is computed
row-wise from the current frame: appends the column name when new and writes
the per-row value into every row. -/
def DataFrame.setColF (df : DataFrame) (c : String) (f : Row → Value) : DataFrame :=
  { cols := if c ∈ df.cols then df.cols else df.cols ++ [c],
    rows := df.rows.map (fun r => assocSet r c (f r)) }

/-- The values of one column, as stored. -/
def DataFrame.col (df : DataFrame) (c : String) : List Value :=
  df.rows.map (fun r => assocGet r c)

/-- Numeric content of a value (`0` for non-numeric cells; the embedding only
reads it from columns that hold numbers). -/
def qOf : Value → ℚ
  | Value.num q => q
  | _ => 0

/-- The values of one numeric column. -/
def DataFrame.colQ (df : DataFrame) (c : String) : List ℚ :=
  df.rows.map (fun r => qOf (assocGet r c))

/-- Column projection `df.loc[:, cs]`: keeps the listed columns in the listed
order. -/
def DataFrame.select (df : DataFrame) (cs : List String) : DataFrame :=
  { cols := cs, rows := df.rows.map (fun r => cs.map (fun c => (c, assocGet r c))) }

/-- Positional column rename (`df.rename(columns=dict(zip(old, new)))`
applied to a frame whose columns are exactly `old` in order). -/
def DataFrame.renameCols (df : DataFrame) (new : List String) : DataFrame :=
  { cols := new, rows := df.rows.map (fun r => new.zip (r.map Prod.snd)) }

/-- Round half to even, numpy's tie rule, used by `DataFrame.round`. -/
def roundHalfEven (x : ℚ) : ℤ :=
  if x - ⌊x⌋ < 1/2 then ⌊x⌋
  else if 1/2 < x - ⌊x⌋ then ⌊x⌋ + 1
  else if Even ⌊x⌋ then ⌊x⌋ else ⌊x⌋ + 1

/-- Round a rational to two decimal places. -/
def round2 (q : ℚ) : ℚ := (roundHalfEven (q * 100) : ℚ) / 100

/-- `df.round(2)` on one cell: numeric cells are rounded to two decimals,
non-numeric cells (strings, NaN, None) are left untouched. -/
def round2v : Value → Value
  | Value.num q => Value.num (round2 q)
  | v => v

/-- `df.round(2)`. -/
def DataFrame.round2df (df : DataFrame) : DataFrame :=
  { cols := df.cols, rows := df.rows.map (fun r => r.map (fun p => (p.1, round2v p.2))) }

/-- `df.where(pd.notnull(df), None)`: every NaN cell becomes an explicit
`None`; all other cells are unchanged. -/
def nullify : Value → Value
  | Value.na => Value.null
  | v => v

/-- `df.where(pd.notnull(df), None)` over a whole frame. -/
def whereNotnullNone (df : DataFrame) : DataFrame :=
  { cols := df.cols, rows := df.rows.map (fun r => r.map (fun p => (p.1, nullify p.2))) }

/-- The pickled model artifacts loaded by `begin()`: the classifier's
positive-class probability (a function of the feature values taken in
feature order), the decision threshold, the ordered feature list, the SHAP
explainer (per-record, per-feature attribution, again a function of the
feature values), and the three drift reference parameters. -/
structure ModelArtifacts where
  predict_proba : List Value → ℚ
  threshold : ℚ
  features : List String
  shap_value : List Value → String → ℚ
  rent_ratio : ℚ
  gamma_args : List ℚ
  int_rate_mean : ℚ

/-- The external statistics collaborators (sklearn, scipy, aequitas),
abstract as in the specification: only their call sites and the treatment of
their results belong to the embedded program.  `binom_test` is scipy's
two-sided binomial test (two-sided is the scipy default, and the source
passes no `alternative`); `kstest` receives the sample, the distribution
family name and its parameters; `ttest_1samp` receives the sample and the
population mean and its second component (the p-value) is what the source
keeps. -/
structure StatsLib where
  f1_score : List ℚ → List ℚ → ℚ
  roc_curve : List ℚ → List ℚ → List (ℚ × ℚ)
  roc_auc_score : List ℚ → List ℚ → ℚ
  binom_test : ℚ → ℕ → ℚ → ℚ
  kstest : List ℚ → String → List ℚ → ℚ
  ttest_1samp : List ℚ → ℚ → ℚ
  log : ℚ → ℚ
  preprocess_input_df : DataFrame → DataFrame
  get_crosstabs : DataFrame → DataFrame
  list_absolute_metrics : DataFrame → List String
  get_disparity_predefined_groups :
    DataFrame → DataFrame → List (String × String) → ℚ → Bool → DataFrame
  list_disparities : DataFrame → List String

/-- Insert into a strictly-ascending list, dropping duplicates. -/
def insertUnique (x : ℚ) : List ℚ → List ℚ
  | [] => [x]
  | y :: ys =>
    if x < y then x :: y :: ys
    else if x = y then y :: ys
    else y :: insertUnique x ys

/-- The sorted list of distinct values of `l` (ascending). -/
def uniqueSorted (l : List ℚ) : List ℚ := l.foldr insertUnique []

/-- sklearn's `confusion_matrix(y_true, y_pred)` with default `labels`: the
label set is the sorted distinct values appearing in `y_true` or `y_pred`,
and cell (i, j) counts the samples with true label `labels[i]` and predicted
label `labels[j]`. -/
def confusion_matrix (yTrue yPred : List ℚ) : List (List ℚ) :=
  let labels := uniqueSorted (yTrue ++ yPred)
  labels.map (fun i =>
    labels.map (fun j =>
      (((yTrue.zip yPred).countP (fun p => p.1 == i && p.2 == j) : ℕ) : ℚ)))

/-- `matrix_to_dicts(matrix, labels)` from the source: for each label index
it reads row `matrix[idx, :]` and zips the labels with that row's values.
Reading past the last row of the matrix is an IndexError in the source,
modelled as `none`; as in Python's `zip`, a row longer than the label list is
truncated. -/
def matrix_to_dicts (matrix : List (List ℚ)) (labels : List String) : Option (List Row) :=
  (List.range labels.length).mapM (fun idx =>
    (matrix.get? idx).map (fun rowvals => labels.zip (rowvals.map Value.num)))

/-- Extract a list of numeric labels; `none` models the sklearn metric
functions rejecting a ground-truth column that contains NaN (or other
non-numeric) entries with a ValueError. -/
def extractNums : List Value → Option (List ℚ)
  | [] => some []
  | Value.num q :: vs => (extractNums vs).map (fun l => q :: l)
  | _ => none

/-- Python's `sorted(pairs, key=lambda x: x[1])`: a stable ascending sort on
the second component (insertion before the first strictly-greater key). -/
def sortBySnd (l : List (String × ℚ)) : List (String × ℚ) :=
  List.insertionSort (fun a b => a.2 < b.2) l

/-- Build a Python dict from a key/value sequence (`dict(zip(ks, vs))`):
left-to-right insertion, a repeated key overwriting in place. -/
def buildDict (l : List (String × ℚ)) : List (String × ℚ) :=
  l.foldl (fun acc p => assocSet acc p.1 p.2) []

/-- `prediction(data)` from the source: the positive-class probability per
record, computed from the feature columns taken in feature order. -/
def prediction (P : ModelArtifacts) (data : DataFrame) : List ℚ :=
  data.rows.map (fun r => P.predict_proba (P.features.map (fun c => assocGet r c)))

/-- `is_validated(data)` from the source: the batch is validated exactly when
`loan_status` is among its columns. -/
def is_validated (data : DataFrame) : Bool := data.cols.contains "loan_status"

/-- The three in-place column assignments at the head of `score(datum)`:
`rent_indicator` from `home_ownership`, `probability` from the model over the
feature columns, and `prediction = probability > threshold` (strict). -/
def scoreFrame (P : ModelArtifacts) (datum : DataFrame) : DataFrame :=
  ((datum.setColF "rent_indicator"
    (fun r => Value.num (if assocGet r "home_ownership" = Value.str "RENT" then 1 else 0))).setColF
      "probability"
    (fun r => Value.num (P.predict_proba (P.features.map (fun c => assocGet r c))))).setColF
      "prediction"
    (fun r => Value.num (if qOf (assocGet r "probability") > P.threshold then 1 else 0))

/-- `score(datum)` from the source.  The first component is the mutated
caller's frame (the source adds the three derived columns in place), the
second the returned record list (`datum.loc[:, [id, probability,
prediction]].to_dict(orient=records)`). -/
def score (P : ModelArtifacts) (datum : DataFrame) : DataFrame × List Row :=
  (scoreFrame P datum, (scoreFrame P datum).rows.map (fun r =>
    [("id", assocGet r "id"),
     ("probability", assocGet r "probability"),
     ("prediction", assocGet r "prediction")]))

/-- The projected-and-renamed frame of `get_bias_metrics`: the columns
`predictions`, `loan_status`, `forty_plus_indicator` renamed to `score`,
`label_value`, `forty_plus_indicator`. -/
def bias_scored_data (data : DataFrame) : DataFrame :=
  (data.select ["predictions", "loan_status", "forty_plus_indicator"]).renameCols
    ["score", "label_value", "forty_plus_indicator"]

/-- The aequitas cross-tab of `get_bias_metrics`. -/
def bias_xtab (S : StatsLib) (data : DataFrame) : DataFrame :=
  S.get_crosstabs (S.preprocess_input_df (bias_scored_data data))

/-- The aequitas disparity frame of `get_bias_metrics` (reference group
`Under Forty` for `forty_plus_indicator`, alpha 0.05, significance
masked). -/
def bias_disparity_df (S : StatsLib) (data : DataFrame) : DataFrame :=
  S.get_disparity_predefined_groups (bias_xtab S data)
    (S.preprocess_input_df (bias_scored_data data))
    [("forty_plus_indicator", "Under Forty")] (1/20) true

/-- The two bias tables returned by `get_bias_metrics`. -/
structure BiasOut where
  absolute_metrics : List Row
  disparity_metrics : List Row
  deriving DecidableEq, Repr

/-- `get_bias_metrics(data)` from the source: project the attribute columns
plus the absolute metric columns from the cross-tab, round that table to two
decimals, project the attribute columns plus the disparity columns from the
disparity frame unrounded, and in both tables replace every NaN cell by an
explicit None before converting to records. -/
def get_bias_metrics (S : StatsLib) (data : DataFrame) : BiasOut :=
  let attribute_columns := ["attribute_name", "attribute_value"]
  let xtab := bias_xtab S data
  let absolute_metrics_df :=
    (xtab.select (attribute_columns ++ S.list_absolute_metrics xtab)).round2df
  let bias_df := bias_disparity_df S data
  let disparity_metrics_df :=
    bias_df.select (attribute_columns ++ S.list_disparities bias_df)
  { absolute_metrics := (whereNotnullNone absolute_metrics_df).rows,
    disparity_metrics := (whereNotnullNone disparity_metrics_df).rows }

/-- `get_shap_values(data)` from the source: per-record attribution vectors
over the feature columns, reduced to the mean of absolute values per feature,
zipped with the feature names into a dict and sorted ascending by value. -/
def get_shap_values (P : ModelArtifacts) (data : DataFrame) : List (String × ℚ) :=
  let means := P.features.map (fun f =>
    ((data.rows.map (fun r =>
      |P.shap_value (P.features.map (fun c => assocGet r c)) f|)).sum)
      / (data.rows.length : ℚ))
  sortBySnd (buildDict (P.features.zip means))

/-- `get_drift_metrics(data)` from the source: the two-sided binomial test of
the summed `rent_indicator` column against `rent_ratio` over the batch size,
the one-sample t-test of the `int_rate` column against `int_rate_mean`, and
the Kolmogorov–Smirnov test of the negated log-probabilities against the
gamma family with `gamma_args`, packaged under the three fixed keys. -/
def get_drift_metrics (S : StatsLib) (P : ModelArtifacts) (data : DataFrame) :
    List (String × ℚ) :=
  let num_of_renters := (data.colQ "rent_indicator").sum
  let size_of_sample := data.rows.length
  let rent_feat_binom_pvalue := S.binom_test num_of_renters size_of_sample P.rent_ratio
  let int_rate_pvalue := S.ttest_1samp (data.colQ "int_rate") P.int_rate_mean
  let neg_log_probs := ((prediction P data).map S.log).map (fun x => -1 * x)
  let output_logprob_pvalue := S.kstest neg_log_probs "gamma" P.gamma_args
  [("renters_binom_pvalue", rent_feat_binom_pvalue),
   ("output_logprob_pvalue", output_logprob_pvalue),
   ("int_rate_ttest_pvalue", int_rate_pvalue)]

/-- One value of the metrics report dict. -/
inductive RVal where
  | num : ℚ → RVal
  | cmat : List Row → RVal
  | roc : List (ℚ × ℚ) → RVal
  | biasv : BiasOut → RVal
  | drift : List (String × ℚ) → RVal
  | shap : List (String × ℚ) → RVal
  deriving DecidableEq, Repr

/-- The metrics report: a Python dict in insertion order. -/
abbrev Report := List (String × RVal)

/-- The three in-place column assignments at the head of `metrics(data)`:
`rent_indicator` from `home_ownership`, `probabilities` from the model over
the feature columns, and `predictions` from the comparison `threshold > x`
exactly as written on the source's line 52. -/
def metricsFrame (P : ModelArtifacts) (data : DataFrame) : DataFrame :=
  ((data.setColF "rent_indicator"
    (fun r => Value.num (if assocGet r "home_ownership" = Value.str "RENT" then 1 else 0))).setColF
      "probabilities"
    (fun r => Value.num (P.predict_proba (P.features.map (fun c => assocGet r c))))).setColF
      "predictions"
    (fun r => Value.num (if P.threshold > qOf (assocGet r "probabilities") then 1 else 0))

/-- The two report entries every `metrics` call assembles after the optional
performance block: the drift section and the SHAP attribution section,
computed on the mutated frame. -/
def metricsTail (S : StatsLib) (P : ModelArtifacts) (d3 : DataFrame) : Report :=
  [("drift_metrics", RVal.drift (get_drift_metrics S P d3)),
   ("shap", RVal.shap (get_shap_values P d3))]

/-- The report assembled by `metrics(data)`: `none` models the exceptions
that escape the call (sklearn rejecting a NaN ground-truth column, and the
IndexError of `matrix_to_dicts` on a confusion matrix smaller than the fixed
two-label list). -/
def metricsReport (S : StatsLib) (P : ModelArtifacts) (data : DataFrame) : Option Report :=
  let d3 := metricsFrame P data
  if is_validated d3 then
    match extractNums (d3.col "loan_status") with
    | none => none
    | some ys =>
      match matrix_to_dicts (confusion_matrix ys (d3.colQ "predictions"))
          ["Charged Off", "Fully Paid"] with
      | none => none
      | some cmDicts =>
        some
          ([("f1_score", RVal.num (S.f1_score ys (d3.colQ "predictions"))),
            ("confusion_matrix", RVal.cmat cmDicts),
            ("auc", RVal.num (S.roc_auc_score ys (d3.colQ "probabilities"))),
            ("ROC", RVal.roc (S.roc_curve ys (d3.colQ "probabilities"))),
            ("bias", RVal.biasv (get_bias_metrics S d3))] ++ metricsTail S P d3)
  else some (metricsTail S P d3)

/-- `metrics(data)` from the source: the mutated caller's frame together
with the report (or the escaped exception, `none`). -/
def metrics (S : StatsLib) (P : ModelArtifacts) (data : DataFrame) :
    DataFrame × Option Report :=
  (metricsFrame P data, metricsReport S P data)

/-! ### Association-list and data-frame lemmas -/

theorem assocGet_assocSet_self (r : Row) (c : String) (v : Value) :
    assocGet (assocSet r c v) c = v := by
  induction r with
  | nil => simp [assocSet, assocGet]
  | cons p ps ih =>
    by_cases h : p.1 = c
    · simp [assocSet, assocGet, h]
    · simp [assocSet, assocGet, h, ih]

theorem assocGet_assocSet_ne (r : Row) {c c' : String} (v : Value) (h : c' ≠ c) :
    assocGet (assocSet r c v) c' = assocGet r c' := by
  induction r with
  | nil => simp [assocSet, assocGet, h, Ne.symm h]
  | cons p ps ih =>
    by_cases hp : p.1 = c
    · simp [assocSet, assocGet, hp, h, Ne.symm h]
    · by_cases hp' : p.1 = c'
      · simp [assocSet, assocGet, hp, hp', h, Ne.symm h]
      · simp [assocSet, assocGet, hp, hp', ih]

theorem rows_setColF (df : DataFrame) (c : String) (f : Row → Value) :
    (df.setColF c f).rows = df.rows.map (fun r => assocSet r c (f r)) := rfl

theorem length_rows_setColF (df : DataFrame) (c : String) (f : Row → Value) :
    (df.setColF c f).rows.length = df.rows.length := by
  simp [DataFrame.setColF]

theorem col_setColF_ne (df : DataFrame) {c c' : String} (f : Row → Value) (h : c' ≠ c) :
    (df.setColF c f).col c' = df.col c' := by
  simp [DataFrame.col, DataFrame.setColF, assocGet_assocSet_ne _ _ h]

theorem colQ_eq_map_col (df : DataFrame) (c : String) :
    df.colQ c = (df.col c).map qOf := by
  simp [DataFrame.colQ, DataFrame.col]

theorem colQ_setColF_self (df : DataFrame) (c : String) (f : Row → Value) :
    (df.setColF c f).colQ c = df.rows.map (fun r => qOf (f r)) := by
  simp [DataFrame.colQ, DataFrame.setColF, assocGet_assocSet_self]

theorem mem_cols_setColF (df : DataFrame) (c c' : String) (f : Row → Value) :
    c' ∈ (df.setColF c f).cols ↔ c' ∈ df.cols ∨ c' = c := by
  by_cases h : c ∈ df.cols
  · simp only [DataFrame.setColF, if_pos h]
    constructor
    · exact fun hm => Or.inl hm
    · rintro (hm | rfl)
      · exact hm
      · exact h
  · simp [DataFrame.setColF, if_neg h]

/-! ### Lemmas about the derived frames -/

theorem metricsFrame_col_untouched (P : ModelArtifacts) (data : DataFrame) {c : String}
    (h1 : c ≠ "rent_indicator") (h2 : c ≠ "probabilities") (h3 : c ≠ "predictions") :
    (metricsFrame P data).col c = data.col c := by
  simp [metricsFrame, col_setColF_ne _ _ h1, col_setColF_ne _ _ h2, col_setColF_ne _ _ h3]

theorem scoreFrame_col_untouched (P : ModelArtifacts) (data : DataFrame) {c : String}
    (h1 : c ≠ "rent_indicator") (h2 : c ≠ "probability") (h3 : c ≠ "prediction") :
    (scoreFrame P data).col c = data.col c := by
  simp [scoreFrame, col_setColF_ne _ _ h1, col_setColF_ne _ _ h2, col_setColF_ne _ _ h3]

theorem metricsFrame_length_rows (P : ModelArtifacts) (data : DataFrame) :
    (metricsFrame P data).rows.length = data.rows.length := by
  simp [metricsFrame, length_rows_setColF]

theorem scoreFrame_length_rows (P : ModelArtifacts) (data : DataFrame) :
    (scoreFrame P data).rows.length = data.rows.length := by
  simp [scoreFrame, length_rows_setColF]

theorem mem_cols_metricsFrame (P : ModelArtifacts) (data : DataFrame) (c : String) :
    c ∈ (metricsFrame P data).cols ↔
      c ∈ data.cols ∨ c = "rent_indicator" ∨ c = "probabilities" ∨ c = "predictions" := by
  simp [metricsFrame, mem_cols_setColF]
  tauto

theorem mem_cols_scoreFrame (P : ModelArtifacts) (data : DataFrame) (c : String) :
    c ∈ (scoreFrame P data).cols ↔
      c ∈ data.cols ∨ c = "rent_indicator" ∨ c = "probability" ∨ c = "prediction" := by
  simp [scoreFrame, mem_cols_setColF]
  tauto

theorem is_validated_metricsFrame (P : ModelArtifacts) (data : DataFrame) :
    is_validated (metricsFrame P data) = true ↔ "loan_status" ∈ data.cols := by
  rw [is_validated, List.elem_iff, mem_cols_metricsFrame]
  simp

/-! ### The label set of a binary confusion matrix -/

theorem uniqueSorted_01 (l : List ℚ) (h : ∀ x ∈ l, x = 0 ∨ x = 1) :
    uniqueSorted l =
      if (0 : ℚ) ∈ l then (if (1 : ℚ) ∈ l then [0, 1] else [0])
      else (if (1 : ℚ) ∈ l then [1] else []) := by
  induction l with
  | nil => simp [uniqueSorted]
  | cons a l ih =>
    have ha := h a (List.mem_cons_self a l)
    have hrest : ∀ x ∈ l, x = 0 ∨ x = 1 := fun x hx => h x (List.mem_cons_of_mem a hx)
    have hstep : uniqueSorted (a :: l) = insertUnique a (uniqueSorted l) := rfl
    rw [hstep, ih hrest]
    rcases ha with rfl | rfl
    · by_cases h0 : (0 : ℚ) ∈ l <;> by_cases h1 : (1 : ℚ) ∈ l <;>
        simp [h0, h1, insertUnique]
    · by_cases h0 : (0 : ℚ) ∈ l <;> by_cases h1 : (1 : ℚ) ∈ l <;>
        simp [h0, h1, insertUnique]

/-- Each pair of a 0/1-valued list of (true, predicted) pairs falls in
exactly one of the four confusion-matrix cells, so the four cell counts add
up to the number of pairs. -/
theorem countP_cells (l : List (ℚ × ℚ)) (h : ∀ p ∈ l, (p.1 = 0 ∨ p.1 = 1) ∧ (p.2 = 0 ∨ p.2 = 1)) :
    l.countP (fun p => p.1 == 0 && p.2 == 0) + l.countP (fun p => p.1 == 0 && p.2 == 1)
      + l.countP (fun p => p.1 == 1 && p.2 == 0) + l.countP (fun p => p.1 == 1 && p.2 == 1)
      = l.length := by
  induction l with
  | nil => simp
  | cons a l ih =>
    have ha := h a (List.mem_cons_self a l)
    have hrest : ∀ p ∈ l, (p.1 = 0 ∨ p.1 = 1) ∧ (p.2 = 0 ∨ p.2 = 1) :=
      fun p hp => h p (List.mem_cons_of_mem a hp)
    have ihr := ih hrest
    rcases ha with ⟨h1 | h1, h2 | h2⟩ <;>
      simp [List.countP_cons, h1, h2] <;> omega

/-! ### Sortedness of the SHAP ordering -/

theorem pairwise_le_orderedInsert (x : String × ℚ) (l : List (String × ℚ))
    (h : l.Pairwise (fun a b => a.2 ≤ b.2)) :
    (List.orderedInsert (fun a b => a.2 < b.2) x l).Pairwise (fun a b => a.2 ≤ b.2) := by
  induction l with
  | nil => simp [List.orderedInsert]
  | cons y ys ih =>
    rw [List.pairwise_cons] at h
    by_cases hxy : x.2 < y.2
    · rw [List.orderedInsert, if_pos hxy]
      refine List.pairwise_cons.mpr ⟨?_, List.pairwise_cons.mpr ⟨h.1, h.2⟩⟩
      intro z hz
      rcases List.mem_cons.mp hz with rfl | hz'
      · exact le_of_lt hxy
      · exact le_trans (le_of_lt hxy) (h.1 z hz')
    · rw [List.orderedInsert, if_neg hxy]
      refine List.pairwise_cons.mpr ⟨?_, ih h.2⟩
      intro z hz
      rcases (List.mem_orderedInsert _).mp hz with rfl | hz'
      · exact le_of_not_lt hxy
      · exact h.1 z hz'

theorem pairwise_le_sortBySnd (l : List (String × ℚ)) :
    (sortBySnd l).Pairwise (fun a b => a.2 ≤ b.2) := by
  induction l with
  | nil => simp [sortBySnd, List.insertionSort]
  | cons x xs ih => exact pairwise_le_orderedInsert x _ ih

theorem perm_sortBySnd (l : List (String × ℚ)) : (sortBySnd l).Perm l :=
  List.perm_insertionSort _ l

/-! ### Building a Python dict from distinct keys -/

theorem assocSet_of_not_mem {β : Type} (acc : List (String × β)) (k : String) (v : β)
    (h : ∀ p ∈ acc, p.1 ≠ k) : assocSet acc k v = acc ++ [(k, v)] := by
  induction acc with
  | nil => simp [assocSet]
  | cons p ps ih =>
    have hp := h p (List.mem_cons_self p ps)
    rw [assocSet, if_neg hp]
    simp [ih (fun q hq => h q (List.mem_cons_of_mem p hq))]

theorem foldl_assocSet_of_nodup (l acc : List (String × ℚ))
    (hn : (l.map Prod.fst).Nodup) (hd : ∀ p ∈ acc, ∀ q ∈ l, p.1 ≠ q.1) :
    l.foldl (fun acc p => assocSet acc p.1 p.2) acc = acc ++ l := by
  induction l generalizing acc with
  | nil => simp
  | cons a l ih =>
    rw [List.foldl_cons, assocSet_of_not_mem _ _ _
      (fun p hp => hd p hp a (List.mem_cons_self a l))]
    rw [List.map_cons, List.nodup_cons] at hn
    rw [ih (acc ++ [(a.1, a.2)]) hn.2 ?_]
    · simp
    · intro p hp q hq
      rcases List.mem_append.mp hp with hp' | hp'
      · exact hd p hp' q (List.mem_cons_of_mem a hq)
      · have : p = (a.1, a.2) := by simpa using hp'
        subst this
        exact fun hh => hn.1 (hh ▸ List.mem_map_of_mem Prod.fst hq)

theorem buildDict_of_nodup (l : List (String × ℚ)) (hn : (l.map Prod.fst).Nodup) :
    buildDict l = l := by
  have := foldl_assocSet_of_nodup l [] hn (by simp)
  simpa [buildDict] using this

theorem mem_assocSet {β : Type} (acc : List (String × β)) (k : String) (v : β)
    (p : String × β) (h : p ∈ assocSet acc k v) : p ∈ acc ∨ p = (k, v) := by
  induction acc with
  | nil => simpa [assocSet] using h
  | cons q qs ih =>
    rw [assocSet] at h
    by_cases hq : q.1 = k
    · rw [if_pos hq] at h
      rcases List.mem_cons.mp h with rfl | h'
      · exact Or.inr rfl
      · exact Or.inl (List.mem_cons_of_mem q h')
    · rw [if_neg hq] at h
      rcases List.mem_cons.mp h with rfl | h'
      · exact Or.inl (List.mem_cons_self _ _)
      · rcases ih h' with h'' | h''
        · exact Or.inl (List.mem_cons_of_mem q h'')
        · exact Or.inr h''

theorem mem_foldl_assocSet (l acc : List (String × ℚ)) (p : String × ℚ)
    (h : p ∈ l.foldl (fun acc q => assocSet acc q.1 q.2) acc) : p ∈ acc ∨ p ∈ l := by
  induction l generalizing acc with
  | nil => exact Or.inl (by simpa using h)
  | cons a l ih =>
    rw [List.foldl_cons] at h
    rcases ih (assocSet acc a.1 a.2) h with h' | h'
    · rcases mem_assocSet acc a.1 a.2 p h' with h'' | h''
      · exact Or.inl h''
      · exact Or.inr (by simp [h''])
    · exact Or.inr (List.mem_cons_of_mem a h')

theorem mem_buildDict (l : List (String × ℚ)) (p : String × ℚ) (h : p ∈ buildDict l) :
    p ∈ l := by
  rcases mem_foldl_assocSet l [] p h with h' | h'
  · simp at h'
  · exact h'

/-! ### Numeric ground-truth columns -/

theorem extractNums_of_num (l : List Value) (h : ∀ v ∈ l, v = Value.num (qOf v)) :
    extractNums l = some (l.map qOf) := by
  induction l with
  | nil => simp [extractNums]
  | cons v vs ih =>
    have hv := h v (List.mem_cons_self v vs)
    have hrest := ih (fun w hw => h w (List.mem_cons_of_mem v hw))
    rw [hv]
    simp [extractNums, hrest, qOf]

/-! ### Shape of a successfully assembled report -/

theorem metricsReport_cases (S : StatsLib) (P : ModelArtifacts) (data : DataFrame)
    (r : Report) (h : metricsReport S P data = some r) :
    (is_validated (metricsFrame P data) = false ∧ r = metricsTail S P (metricsFrame P data)) ∨
    (is_validated (metricsFrame P data) = true ∧ ∃ ys cmDicts,
      extractNums ((metricsFrame P data).col "loan_status") = some ys ∧
      matrix_to_dicts (confusion_matrix ys ((metricsFrame P data).colQ "predictions"))
          ["Charged Off", "Fully Paid"] = some cmDicts ∧
      r = [("f1_score", RVal.num (S.f1_score ys ((metricsFrame P data).colQ "predictions"))),
           ("confusion_matrix", RVal.cmat cmDicts),
           ("auc", RVal.num (S.roc_auc_score ys ((metricsFrame P data).colQ "probabilities"))),
           ("ROC", RVal.roc (S.roc_curve ys ((metricsFrame P data).colQ "probabilities"))),
           ("bias", RVal.biasv (get_bias_metrics S (metricsFrame P data)))]
          ++ metricsTail S P (metricsFrame P data)) := by
  simp only [metricsReport] at h
  split at h
  · split at h
    · exact absurd h (by simp)
    · split at h
      · exact absurd h (by simp)
      · refine Or.inr ⟨by assumption, ?_, ?_, by assumption, by assumption, ?_⟩
        exact (Option.some.injEq _ _).mp h.symm ▸ rfl
  · refine Or.inl ⟨?_, ((Option.some.injEq _ _).mp h).symm⟩
    have hb : ¬ is_validated (metricsFrame P data) = true := by assumption
    exact Bool.not_eq_true _ ▸ (by simpa using hb)

theorem metricsTail_keys (S : StatsLib) (P : ModelArtifacts) (d : DataFrame) :
    (metricsTail S P d).map Prod.fst = ["drift_metrics", "shap"] := rfl

theorem metricsReport_keys (S : StatsLib) (P : ModelArtifacts) (data : DataFrame)
    (r : Report) (h : metricsReport S P data = some r) :
    (is_validated (metricsFrame P data) = true ∧ r.map Prod.fst =
      ["f1_score", "confusion_matrix", "auc", "ROC", "bias", "drift_metrics", "shap"]) ∨
    (is_validated (metricsFrame P data) = false ∧ r.map Prod.fst = ["drift_metrics", "shap"]) := by
  rcases metricsReport_cases S P data r h with ⟨hv, rfl⟩ | ⟨hv, ys, cmDicts, _, _, rfl⟩
  · exact Or.inr ⟨hv, rfl⟩
  · exact Or.inl ⟨hv, rfl⟩

theorem metricsReport_lookup_drift (S : StatsLib) (P : ModelArtifacts) (data : DataFrame)
    (r : Report) (h : metricsReport S P data = some r) :
    r.lookup "drift_metrics" =
      some (RVal.drift (get_drift_metrics S P (metricsFrame P data))) := by
  rcases metricsReport_cases S P data r h with ⟨_, rfl⟩ | ⟨_, ys, cmDicts, _, _, rfl⟩
  · simp [metricsTail, List.lookup]
  · simp [metricsTail, List.lookup]

theorem metricsReport_lookup_shap (S : StatsLib) (P : ModelArtifacts) (data : DataFrame)
    (r : Report) (h : metricsReport S P data = some r) :
    r.lookup "shap" = some (RVal.shap (get_shap_values P (metricsFrame P data))) := by
  rcases metricsReport_cases S P data r h with ⟨_, rfl⟩ | ⟨_, ys, cmDicts, _, _, rfl⟩
  · simp [metricsTail, List.lookup]
  · simp [metricsTail, List.lookup]

/-! ### Concrete fixtures used by witnesses and counterexamples -/

/-- A concrete statistics collaborator (constant stubs; the claims under
audit concern the module's plumbing, not the collaborators' numerics). -/
def SFix : StatsLib where
  f1_score := fun _ _ => 0
  roc_curve := fun _ _ => []
  roc_auc_score := fun _ _ => 0
  binom_test := fun _ _ _ => 0
  kstest := fun _ _ _ => 0
  ttest_1samp := fun _ _ => 0
  log := fun _ => 0
  preprocess_input_df := fun df => df
  get_crosstabs := fun df => df
  list_absolute_metrics := fun _ => ["fpr"]
  get_disparity_predefined_groups := fun x _ _ _ _ => x
  list_disparities := fun _ => ["fpr_disparity"]

/-- A concrete model provider: constant probability 7 against threshold 5
(the embedding does not constrain probabilities to the unit interval, and
integer-valued rationals keep the fixture kernel-computable). -/
def PFix : ModelArtifacts where
  predict_proba := fun _ => 7
  threshold := 5
  features := ["int_rate"]
  shap_value := fun _ _ => -2
  rent_ratio := 2
  gamma_args := [1, 2]
  int_rate_mean := 3

/-- A one-record batch without ground truth. -/
def dfU : DataFrame :=
  { cols := ["id", "home_ownership", "int_rate"],
    rows := [[("id", Value.num 1), ("home_ownership", Value.str "RENT"),
              ("int_rate", Value.num 10)]] }

/-- A two-record validated batch with one record of each true class. -/
def dfV : DataFrame :=
  { cols := ["id", "home_ownership", "int_rate", "loan_status", "forty_plus_indicator"],
    rows := [[("id", Value.num 1), ("home_ownership", Value.str "RENT"),
              ("int_rate", Value.num 10), ("loan_status", Value.num 0),
              ("forty_plus_indicator", Value.str "Under Forty")],
             [("id", Value.num 2), ("home_ownership", Value.str "OWN"),
              ("int_rate", Value.num 12), ("loan_status", Value.num 1),
              ("forty_plus_indicator", Value.str "Over Forty")]] }

/-- A batch whose `loan_status` column exists but holds a missing value. -/
def dfNa : DataFrame :=
  { cols := ["id", "loan_status"],
    rows := [[("id", Value.num 1), ("loan_status", Value.na)]] }

/-- A provider making every `metrics` prediction 1 (threshold 1 exceeds the
constant probability 0, and the metrics comparison is `threshold > x`). -/
def PDeg : ModelArtifacts :=
  { PFix with threshold := 1, predict_proba := fun _ => 0 }

/-- A one-record validated batch whose only true label is 1. -/
def dfDeg : DataFrame :=
  { cols := ["id", "home_ownership", "int_rate", "loan_status"],
    rows := [[("id", Value.num 1), ("home_ownership", Value.str "OWN"),
              ("int_rate", Value.num 10), ("loan_status", Value.num 1)]] }

/-! ### The claims -/

/-- C1: the claim says that in both entry points the derived prediction is 1
iff the probability strictly exceeds the threshold.  `score` does exactly
that, but `metrics` (source line 52) compares `threshold > x`, the reverse:
at a batch whose single record gets probability 7 against threshold 5,
`score` derives prediction 1 as claimed, while `metrics` stores prediction 0
(and stores 1 exactly when the probability is below the threshold).  This
theorem evaluates both entry points at that failing input. -/
theorem C1_metrics_inverts_threshold_comparison :
    PFix.threshold < 7 ∧
    (score PFix dfU).2 =
      [[("id", Value.num 1), ("probability", Value.num 7),
        ("prediction", Value.num 1)]] ∧
    (metrics SFix PFix dfU).1.colQ "probabilities" = [7] ∧
    (metrics SFix PFix dfU).1.colQ "predictions" = [0] := by
  decide

/-- C2 counterexample: `is_validated` only asks whether the `loan_status`
column exists; a batch whose column exists but whose only record carries a
missing label is nevertheless treated as validated, refuting "validated iff
every record carries a ground-truth label". -/
theorem C2_counterexample_na_label_still_validated :
    is_validated dfNa = true ∧
    ¬ (∀ row ∈ dfNa.rows, assocGet row "loan_status" ≠ Value.na) := by
  decide

/-- C2 (amended): a batch is treated as validated — and the performance and
fairness sections appear in a successfully produced report — iff the batch's
columns include `loan_status`; per-record presence of the label is not
examined by the gate. -/
theorem C2_validated_iff_loan_status_column (S : StatsLib) (P : ModelArtifacts)
    (data : DataFrame) (r : Report) (h : (metrics S P data).2 = some r) :
    (("bias" ∈ r.map Prod.fst ∧ "f1_score" ∈ r.map Prod.fst) ↔
      "loan_status" ∈ data.cols) ∧
    (is_validated data = true ↔ "loan_status" ∈ data.cols) := by
  have h' : metricsReport S P data = some r := h
  constructor
  · rcases metricsReport_keys S P data r h' with ⟨hv, hkeys⟩ | ⟨hv, hkeys⟩
    · rw [hkeys]
      have hm := (is_validated_metricsFrame P data).mp hv
      simp [hm]
    · have hm : "loan_status" ∉ data.cols := by
        intro hc
        have ht := (is_validated_metricsFrame P data).mpr hc
        rw [hv] at ht
        cases ht
      rw [hkeys]
      simp [hm]
  · rw [is_validated]
    exact List.elem_iff

/-- Witness for C2's amended theorem at a concrete batch. -/
theorem C2_validated_iff_loan_status_column_witness :
    (("bias" ∈ (metricsTail SFix PFix (metricsFrame PFix dfU)).map Prod.fst ∧
      "f1_score" ∈ (metricsTail SFix PFix (metricsFrame PFix dfU)).map Prod.fst) ↔
      "loan_status" ∈ dfU.cols) ∧
    (is_validated dfU = true ↔ "loan_status" ∈ dfU.cols) :=
  C2_validated_iff_loan_status_column SFix PFix dfU _ rfl

/-- C3: a batch without ground truth (no `loan_status` column) produces a
report with exactly the keys `drift_metrics` and `shap` — the performance
keys (`f1_score`, `confusion_matrix`, `auc`, `ROC`) and `bias` are omitted
and no exception escapes — and every report `metrics` produces, validated or
not, contains `drift_metrics` and `shap`.  (The source's flat report spells
the specification's `drift` and `attribution` sections `drift_metrics` and
`shap`.) -/
theorem C3_unvalidated_report_omits_performance (S : StatsLib) (P : ModelArtifacts)
    (data : DataFrame) (h : "loan_status" ∉ data.cols) :
    ((metrics S P data).2 = some (metricsTail S P (metricsFrame P data)) ∧
      (metricsTail S P (metricsFrame P data)).map Prod.fst = ["drift_metrics", "shap"]) ∧
    (∀ (S' : StatsLib) (P' : ModelArtifacts) (data' : DataFrame) (r : Report),
      (metrics S' P' data').2 = some r →
      "drift_metrics" ∈ r.map Prod.fst ∧ "shap" ∈ r.map Prod.fst) := by
  constructor
  · have hv : is_validated (metricsFrame P data) = false := by
      cases hb : is_validated (metricsFrame P data)
      · rfl
      · exact absurd ((is_validated_metricsFrame P data).mp hb) h
    constructor
    · show metricsReport S P data = some _
      simp [metricsReport, hv]
    · rfl
  · intro S' P' data' r hr
    rcases metricsReport_keys S' P' data' r hr with ⟨_, hkeys⟩ | ⟨_, hkeys⟩ <;>
      rw [hkeys] <;> simp

/-- Witness for C3 at a concrete batch without ground truth. -/
theorem C3_unvalidated_report_omits_performance_witness :
    ((metrics SFix PFix dfU).2 = some (metricsTail SFix PFix (metricsFrame PFix dfU)) ∧
      (metricsTail SFix PFix (metricsFrame PFix dfU)).map Prod.fst =
        ["drift_metrics", "shap"]) ∧
    (∀ (S' : StatsLib) (P' : ModelArtifacts) (data' : DataFrame) (r : Report),
      (metrics S' P' data').2 = some r →
      "drift_metrics" ∈ r.map Prod.fst ∧ "shap" ∈ r.map Prod.fst) :=
  C3_unvalidated_report_omits_performance SFix PFix dfU (by decide)

/-- The record `score` emits for one input row: the row's `id`, the model's
probability over the feature columns (after the `rent_indicator` derivation),
and the strict-threshold prediction. -/
def scoreRecord (P : ModelArtifacts) (row : Row) : Row :=
  let r1 := assocSet row "rent_indicator"
    (Value.num (if assocGet row "home_ownership" = Value.str "RENT" then 1 else 0))
  let p := P.predict_proba (P.features.map (fun c => assocGet r1 c))
  [("id", assocGet row "id"), ("probability", Value.num p),
   ("prediction", Value.num (if p > P.threshold then 1 else 0))]

theorem score_records_eq (P : ModelArtifacts) (datum : DataFrame) :
    (score P datum).2 = datum.rows.map (scoreRecord P) := by
  have hne1 : ("id" : String) ≠ "prediction" := by decide
  have hne2 : ("id" : String) ≠ "probability" := by decide
  have hne3 : ("id" : String) ≠ "rent_indicator" := by decide
  have hne4 : ("probability" : String) ≠ "prediction" := by decide
  simp only [score, scoreFrame, DataFrame.setColF, List.map_map]
  refine List.map_congr_left (fun row _ => ?_)
  simp only [Function.comp_apply, scoreRecord, assocGet_assocSet_self,
    assocGet_assocSet_ne _ _ hne1, assocGet_assocSet_ne _ _ hne2,
    assocGet_assocSet_ne _ _ hne3, assocGet_assocSet_ne _ _ hne4, qOf]

/-- C4: `score` returns exactly one output record per input record, in input
order (the i-th output is derived from the i-th input row), and every output
record carries exactly the fields `id`, `probability`, `prediction`, in that
order. -/
theorem C4_score_one_record_per_row_in_order (P : ModelArtifacts) (datum : DataFrame) :
    ((score P datum).2).length = datum.rows.length ∧
    (∀ rec ∈ (score P datum).2, rec.map Prod.fst = ["id", "probability", "prediction"]) ∧
    (∀ i : ℕ, ((score P datum).2)[i]? = (datum.rows[i]?).map (scoreRecord P)) := by
  refine ⟨?_, ?_, ?_⟩
  · rw [score_records_eq]
    simp
  · rw [score_records_eq]
    intro rec hrec
    rcases List.mem_map.mp hrec with ⟨row, _, rfl⟩
    simp [scoreRecord]
  · intro i
    rw [score_records_eq]
    simp [List.getElem?_map]

/-- C9: both entry points mutate the caller's batch in place: `score` adds
(or overwrites) exactly the columns `rent_indicator`, `probability`,
`prediction`, and `metrics` exactly `rent_indicator`, `probabilities`,
`predictions`; the row count is preserved and every other column's stored
values are unchanged. -/
theorem C9_entry_points_mutate_only_derived_columns (S : StatsLib) (P : ModelArtifacts)
    (data : DataFrame) :
    (∀ c, c ∈ (score P data).1.cols ↔
      c ∈ data.cols ∨ c = "rent_indicator" ∨ c = "probability" ∨ c = "prediction") ∧
    (score P data).1.rows.length = data.rows.length ∧
    (∀ c, c ∉ (["rent_indicator", "probability", "prediction"] : List String) →
      (score P data).1.col c = data.col c) ∧
    (∀ c, c ∈ (metrics S P data).1.cols ↔
      c ∈ data.cols ∨ c = "rent_indicator" ∨ c = "probabilities" ∨ c = "predictions") ∧
    (metrics S P data).1.rows.length = data.rows.length ∧
    (∀ c, c ∉ (["rent_indicator", "probabilities", "predictions"] : List String) →
      (metrics S P data).1.col c = data.col c) := by
  refine ⟨fun c => mem_cols_scoreFrame P data c, scoreFrame_length_rows P data, ?_,
    fun c => mem_cols_metricsFrame P data c, metricsFrame_length_rows P data, ?_⟩
  · intro c hc
    simp only [List.mem_cons, List.not_mem_nil, or_false, not_or] at hc
    exact scoreFrame_col_untouched P data hc.1 hc.2.1 hc.2.2
  · intro c hc
    simp only [List.mem_cons, List.not_mem_nil, or_false, not_or] at hc
    exact metricsFrame_col_untouched P data hc.1 hc.2.1 hc.2.2

theorem nullify_ne_na (v : Value) : nullify v ≠ Value.na := by
  cases v <;> simp [nullify]

theorem round2_mul_hundred_den (q : ℚ) : (round2 q * 100).den = 1 := by
  rw [round2, div_mul_cancel₀ _ (by norm_num : (100 : ℚ) ≠ 0)]
  exact Rat.den_intCast _

theorem nullify_round2v_num (v : Value) (q : ℚ) (h : nullify (round2v v) = Value.num q) :
    ∃ q0, v = Value.num q0 ∧ q = round2 q0 := by
  cases v <;> simp [nullify, round2v] at h
  exact ⟨_, rfl, h.symm⟩

/-- C6: in the fairness output, every absolute-metrics cell is the two-decimal
rounding of the corresponding cross-tab cell while disparity cells are carried
over unrounded, the rows of both tables keep the complete projected column
set (no key is ever omitted), and every NaN cell of either source table is
serialized as an explicit `None` — never left as NaN, never dropped, and (as
the cell correspondence shows) never coerced to zero. -/
theorem C6_bias_rounding_and_null_policy (S : StatsLib) (data : DataFrame) :
    ((get_bias_metrics S data).absolute_metrics =
      ((bias_xtab S data).select
        (["attribute_name", "attribute_value"] ++
          S.list_absolute_metrics (bias_xtab S data))).rows.map
        (fun row => row.map (fun p => (p.1, nullify (round2v p.2))))) ∧
    ((get_bias_metrics S data).disparity_metrics =
      ((bias_disparity_df S data).select
        (["attribute_name", "attribute_value"] ++
          S.list_disparities (bias_disparity_df S data))).rows.map
        (fun row => row.map (fun p => (p.1, nullify p.2)))) ∧
    (∀ row ∈ (get_bias_metrics S data).absolute_metrics,
      row.map Prod.fst = ["attribute_name", "attribute_value"] ++
        S.list_absolute_metrics (bias_xtab S data)) ∧
    (∀ row ∈ (get_bias_metrics S data).disparity_metrics,
      row.map Prod.fst = ["attribute_name", "attribute_value"] ++
        S.list_disparities (bias_disparity_df S data)) ∧
    (∀ row ∈ (get_bias_metrics S data).absolute_metrics, ∀ p ∈ row,
      p.2 ≠ Value.na ∧ ∀ q : ℚ, p.2 = Value.num q → (q * 100).den = 1) ∧
    (∀ row ∈ (get_bias_metrics S data).disparity_metrics, ∀ p ∈ row, p.2 ≠ Value.na) := by
  have habs : (get_bias_metrics S data).absolute_metrics =
      ((bias_xtab S data).select
        (["attribute_name", "attribute_value"] ++
          S.list_absolute_metrics (bias_xtab S data))).rows.map
        (fun row => row.map (fun p => (p.1, nullify (round2v p.2)))) := by
    simp [get_bias_metrics, whereNotnullNone, DataFrame.round2df, List.map_map,
      Function.comp]
  have hdisp : (get_bias_metrics S data).disparity_metrics =
      ((bias_disparity_df S data).select
        (["attribute_name", "attribute_value"] ++
          S.list_disparities (bias_disparity_df S data))).rows.map
        (fun row => row.map (fun p => (p.1, nullify p.2))) := by
    simp [get_bias_metrics, whereNotnullNone]
  refine ⟨habs, hdisp, ?_, ?_, ?_, ?_⟩
  · rw [habs]
    intro row hrow
    rcases List.mem_map.mp hrow with ⟨srow, hsrow, rfl⟩
    rcases List.mem_map.mp hsrow with ⟨r0, _, rfl⟩
    simp [DataFrame.select, List.map_map, Function.comp_def]
  · rw [hdisp]
    intro row hrow
    rcases List.mem_map.mp hrow with ⟨srow, hsrow, rfl⟩
    rcases List.mem_map.mp hsrow with ⟨r0, _, rfl⟩
    simp [DataFrame.select, List.map_map, Function.comp_def]
  · rw [habs]
    intro row hrow p hp
    rcases List.mem_map.mp hrow with ⟨srow, _, rfl⟩
    rcases List.mem_map.mp hp with ⟨q0, _, rfl⟩
    refine ⟨nullify_ne_na _, fun q hq => ?_⟩
    rcases nullify_round2v_num _ _ hq with ⟨qb, _, rfl⟩
    exact round2_mul_hundred_den qb
  · rw [hdisp]
    intro row hrow p hp
    rcases List.mem_map.mp hrow with ⟨srow, _, rfl⟩
    rcases List.mem_map.mp hp with ⟨q0, _, rfl⟩
    exact nullify_ne_na _

theorem sum_map_ite_eq_countP (l : List Row) (p : Row → Prop) [DecidablePred p] :
    (l.map (fun r => if p r then (1 : ℚ) else 0)).sum =
      ((l.countP (fun r => decide (p r)) : ℕ) : ℚ) := by
  induction l with
  | nil => simp
  | cons a l ih =>
    by_cases h : p a
    · simp [h, ih, List.countP_cons]
      ring
    · simp [h, ih, List.countP_cons]

theorem metricsFrame_colQ_rent (P : ModelArtifacts) (data : DataFrame) :
    (metricsFrame P data).colQ "rent_indicator" =
      data.rows.map (fun r =>
        if assocGet r "home_ownership" = Value.str "RENT" then (1 : ℚ) else 0) := by
  have h1 : ("rent_indicator" : String) ≠ "probabilities" := by decide
  have h2 : ("rent_indicator" : String) ≠ "predictions" := by decide
  rw [colQ_eq_map_col, metricsFrame]
  rw [col_setColF_ne _ _ h2, col_setColF_ne _ _ h1]
  simp [DataFrame.col, DataFrame.setColF, List.map_map, Function.comp_def,
    assocGet_assocSet_self, qOf]

/-- The summed `rent_indicator` column of the mutated frame counts exactly
the records whose `rent_indicator` is 1. -/
theorem renters_sum_eq_count (P : ModelArtifacts) (data : DataFrame) :
    ((metricsFrame P data).colQ "rent_indicator").sum =
      (((metricsFrame P data).rows.countP
        (fun row => assocGet row "rent_indicator" == Value.num 1) : ℕ) : ℚ) := by
  have h1 : ("rent_indicator" : String) ≠ "probabilities" := by decide
  have h2 : ("rent_indicator" : String) ≠ "predictions" := by decide
  have hcount : (metricsFrame P data).rows.countP
      (fun row => assocGet row "rent_indicator" == Value.num 1) =
      data.rows.countP
        (fun r => decide (assocGet r "home_ownership" = Value.str "RENT")) := by
    show List.countP _ (((data.setColF _ _).setColF _ _).setColF _ _).rows = _
    simp only [rows_setColF, List.map_map, List.countP_map]
    refine List.countP_congr (fun row _ => ?_)
    simp only [Function.comp_apply, assocGet_assocSet_ne _ _ h2,
      assocGet_assocSet_ne _ _ h1, assocGet_assocSet_self]
    by_cases hc : assocGet row "home_ownership" = Value.str "RENT" <;> simp [hc]
  rw [metricsFrame_colQ_rent, sum_map_ite_eq_countP, hcount]

theorem metricsFrame_colQ_int_rate (P : ModelArtifacts) (data : DataFrame) :
    (metricsFrame P data).colQ "int_rate" = data.colQ "int_rate" := by
  rw [colQ_eq_map_col, colQ_eq_map_col,
    metricsFrame_col_untouched P data (by decide) (by decide) (by decide)]

/-- C7: every produced report's drift section holds exactly the three keys
`renters_binom_pvalue`, `output_logprob_pvalue`, `int_rate_ttest_pvalue`,
whose values are respectively the (scipy-default two-sided) binomial test of
the count of records with `rent_indicator = 1` against proportion
`rent_ratio` over the batch size, the Kolmogorov–Smirnov test of the
records' negated log-probabilities against the gamma family parameterized by
`gamma_args`, and the one-sample t-test of the batch's `int_rate` values
against `int_rate_mean`. -/
theorem C7_drift_section_contents (S : StatsLib) (P : ModelArtifacts)
    (data : DataFrame) (r : Report) (h : (metrics S P data).2 = some r) :
    r.lookup "drift_metrics" = some (RVal.drift
      [("renters_binom_pvalue",
        S.binom_test
          (((metricsFrame P data).rows.countP
            (fun row => assocGet row "rent_indicator" == Value.num 1) : ℕ) : ℚ)
          data.rows.length P.rent_ratio),
       ("output_logprob_pvalue",
        S.kstest
          ((metricsFrame P data).rows.map (fun row =>
            -1 * S.log (P.predict_proba (P.features.map (fun c => assocGet row c)))))
          "gamma" P.gamma_args),
       ("int_rate_ttest_pvalue",
        S.ttest_1samp (data.colQ "int_rate") P.int_rate_mean)]) := by
  rw [metricsReport_lookup_drift S P data r h]
  congr 1
  congr 1
  rw [get_drift_metrics]
  rw [renters_sum_eq_count, metricsFrame_length_rows, metricsFrame_colQ_int_rate]
  simp [prediction, List.map_map, Function.comp_def]

/-- Witness for C7 at a concrete batch. -/
theorem C7_drift_section_contents_witness :
    (metricsTail SFix PFix (metricsFrame PFix dfU)).lookup "drift_metrics" =
      some (RVal.drift
      [("renters_binom_pvalue",
        SFix.binom_test
          (((metricsFrame PFix dfU).rows.countP
            (fun row => assocGet row "rent_indicator" == Value.num 1) : ℕ) : ℚ)
          dfU.rows.length PFix.rent_ratio),
       ("output_logprob_pvalue",
        SFix.kstest
          ((metricsFrame PFix dfU).rows.map (fun row =>
            -1 * SFix.log (PFix.predict_proba
              (PFix.features.map (fun c => assocGet row c)))))
          "gamma" PFix.gamma_args),
       ("int_rate_ttest_pvalue",
        SFix.ttest_1samp (dfU.colQ "int_rate") PFix.int_rate_mean)]) :=
  C7_drift_section_contents SFix PFix dfU _ rfl

/-! ### The confusion matrix on binary data -/

theorem mem_preds_01 (P : ModelArtifacts) (data : DataFrame) :
    ∀ x ∈ (metricsFrame P data).colQ "predictions", x = 0 ∨ x = 1 := by
  rw [metricsFrame, colQ_setColF_self]
  intro x hx
  rcases List.mem_map.mp hx with ⟨r, _, rfl⟩
  by_cases h : P.threshold > qOf (assocGet r "probabilities")
  · right
    rw [if_pos h]
    rfl
  · left
    rw [if_neg h]
    rfl

/-- Cell (i, j) of the confusion matrix `metrics` computes: the number of
records whose true `loan_status` is `i` and whose derived prediction is
`j`. -/
def cmCell (P : ModelArtifacts) (data : DataFrame) (i j : ℚ) : ℕ :=
  ((data.colQ "loan_status").zip ((metricsFrame P data).colQ "predictions")).countP
    (fun p => p.1 == i && p.2 == j)

theorem matrix_to_dicts_two (a b c d : ℚ) (rest : List (List ℚ)) (l0 l1 : String) :
    matrix_to_dicts ([a, b] :: [c, d] :: rest) [l0, l1] =
      some [[(l0, Value.num a), (l1, Value.num b)],
            [(l0, Value.num c), (l1, Value.num d)]] := rfl

theorem confusion_matrix_01 (Y Ps : List ℚ)
    (hY : ∀ x ∈ Y, x = 0 ∨ x = 1) (hP : ∀ x ∈ Ps, x = 0 ∨ x = 1)
    (h0 : (0 : ℚ) ∈ Y ++ Ps) (h1 : (1 : ℚ) ∈ Y ++ Ps) :
    confusion_matrix Y Ps =
      [[((Y.zip Ps).countP (fun p => p.1 == 0 && p.2 == 0) : ℚ),
        ((Y.zip Ps).countP (fun p => p.1 == 0 && p.2 == 1) : ℚ)],
       [((Y.zip Ps).countP (fun p => p.1 == 1 && p.2 == 0) : ℚ),
        ((Y.zip Ps).countP (fun p => p.1 == 1 && p.2 == 1) : ℚ)]] := by
  have hall : ∀ x ∈ Y ++ Ps, x = 0 ∨ x = 1 := by
    intro x hx
    rcases List.mem_append.mp hx with hx' | hx'
    · exact hY x hx'
    · exact hP x hx'
  rw [confusion_matrix, uniqueSorted_01 _ hall, if_pos h0, if_pos h1]
  rfl

/-- C5 (amended): for every validated batch whose ground-truth labels are all
0 or 1 and in which both classes occur among the true labels and the derived
predictions combined, the report's confusion matrix is the 2-by-2 table with
rows and columns ordered ["Charged Off", "Fully Paid"] — cell (i, j) counting
the records of true class i predicted as class j — and its four cells add up
to the batch size.  (Without the both-classes condition the underlying label
set is a singleton, sklearn's matrix is 1-by-1, and `matrix_to_dicts` raises
an IndexError instead of producing a report — see the counterexample.) -/
theorem C5_confusion_matrix_shape_and_total (S : StatsLib) (P : ModelArtifacts)
    (data : DataFrame)
    (hval : "loan_status" ∈ data.cols)
    (hy : ∀ v ∈ data.col "loan_status", v = Value.num 0 ∨ v = Value.num 1)
    (h0 : (0 : ℚ) ∈ data.colQ "loan_status" ++ (metricsFrame P data).colQ "predictions")
    (h1 : (1 : ℚ) ∈ data.colQ "loan_status" ++ (metricsFrame P data).colQ "predictions") :
    ∃ r, (metrics S P data).2 = some r ∧
      r.lookup "confusion_matrix" = some (RVal.cmat
        [[("Charged Off", Value.num (cmCell P data 0 0)),
          ("Fully Paid", Value.num (cmCell P data 0 1))],
         [("Charged Off", Value.num (cmCell P data 1 0)),
          ("Fully Paid", Value.num (cmCell P data 1 1))]]) ∧
      cmCell P data 0 0 + cmCell P data 0 1 + cmCell P data 1 0 + cmCell P data 1 1 =
        data.rows.length := by
  have hcolu : (metricsFrame P data).col "loan_status" = data.col "loan_status" :=
    metricsFrame_col_untouched P data (by decide) (by decide) (by decide)
  have hYv : ∀ x ∈ data.colQ "loan_status", x = 0 ∨ x = 1 := by
    rw [colQ_eq_map_col]
    intro x hx
    rcases List.mem_map.mp hx with ⟨v, hv, rfl⟩
    rcases hy v hv with rfl | rfl
    · left
      rfl
    · right
      rfl
  have hPv := mem_preds_01 P data
  have hex : extractNums ((metricsFrame P data).col "loan_status") =
      some (data.colQ "loan_status") := by
    rw [hcolu, extractNums_of_num _ ?_, ← colQ_eq_map_col]
    intro v hv
    rcases hy v hv with rfl | rfl <;> rfl
  have hvalb : is_validated (metricsFrame P data) = true :=
    (is_validated_metricsFrame P data).mpr hval
  have hcm := confusion_matrix_01 (data.colQ "loan_status")
    ((metricsFrame P data).colQ "predictions") hYv hPv h0 h1
  have hrep : metricsReport S P data = some
      ([("f1_score", RVal.num (S.f1_score (data.colQ "loan_status")
          ((metricsFrame P data).colQ "predictions"))),
        ("confusion_matrix", RVal.cmat
          [[("Charged Off", Value.num (cmCell P data 0 0)),
            ("Fully Paid", Value.num (cmCell P data 0 1))],
           [("Charged Off", Value.num (cmCell P data 1 0)),
            ("Fully Paid", Value.num (cmCell P data 1 1))]]),
        ("auc", RVal.num (S.roc_auc_score (data.colQ "loan_status")
          ((metricsFrame P data).colQ "probabilities"))),
        ("ROC", RVal.roc (S.roc_curve (data.colQ "loan_status")
          ((metricsFrame P data).colQ "probabilities"))),
        ("bias", RVal.biasv (get_bias_metrics S (metricsFrame P data)))]
        ++ metricsTail S P (metricsFrame P data)) := by
    simp only [metricsReport, hvalb, if_true, hex, hcm, cmCell, matrix_to_dicts_two]
  refine ⟨_, hrep, ?_, ?_⟩
  · simp [List.lookup, metricsTail]
  · have hlenY : (data.colQ "loan_status").length = data.rows.length := by
      simp [DataFrame.colQ]
    have hlenP : ((metricsFrame P data).colQ "predictions").length = data.rows.length := by
      simp [DataFrame.colQ, metricsFrame_length_rows]
    have hpairs : ∀ p ∈ (data.colQ "loan_status").zip
        ((metricsFrame P data).colQ "predictions"),
        (p.1 = 0 ∨ p.1 = 1) ∧ (p.2 = 0 ∨ p.2 = 1) := by
      rintro ⟨x, y⟩ hp
      rcases List.of_mem_zip hp with ⟨hx, hy'⟩
      exact ⟨hYv x hx, hPv y hy'⟩
    have := countP_cells _ hpairs
    rw [cmCell, cmCell, cmCell, cmCell, this, List.length_zip, hlenY, hlenP, min_self]

/-- Witness for C5's amended theorem at a concrete two-class batch. -/
theorem C5_confusion_matrix_shape_and_total_witness :
    ∃ r, (metrics SFix PFix dfV).2 = some r ∧
      r.lookup "confusion_matrix" = some (RVal.cmat
        [[("Charged Off", Value.num (cmCell PFix dfV 0 0)),
          ("Fully Paid", Value.num (cmCell PFix dfV 0 1))],
         [("Charged Off", Value.num (cmCell PFix dfV 1 0)),
          ("Fully Paid", Value.num (cmCell PFix dfV 1 1))]]) ∧
      cmCell PFix dfV 0 0 + cmCell PFix dfV 0 1 + cmCell PFix dfV 1 0 +
        cmCell PFix dfV 1 1 = dfV.rows.length :=
  C5_confusion_matrix_shape_and_total SFix PFix dfV (by decide) (by decide)
    (by decide) (by decide)

/-- C5 counterexample: a validated one-record batch whose only true label is
1 and whose only derived prediction is 1 makes the underlying label set a
singleton; the source's `matrix_to_dicts` then indexes past the 1-by-1
matrix and the `metrics` call dies with an IndexError — no report, hence no
2-by-2 confusion matrix, is produced for this validated batch. -/
theorem C5_counterexample_single_class_no_report :
    is_validated dfDeg = true ∧ (metrics SFix PDeg dfDeg).2 = none := by
  decide

/-! ### The attribution section -/

theorem zip_self_map {α β : Type} (l : List α) (g : α → β) :
    l.zip (l.map g) = l.map (fun a => (a, g a)) := by
  induction l with
  | nil => rfl
  | cons a l ih => simp [ih]

/-- The mean of the absolute per-record attribution values of feature `f`
over the rows of frame `d` — the reduction `np.mean(abs(shap_values),
axis=0)` performs per feature. -/
def meanAbsShap (P : ModelArtifacts) (d : DataFrame) (f : String) : ℚ :=
  (d.rows.map (fun r =>
    |P.shap_value (P.features.map (fun c => assocGet r c)) f|)).sum
    / (d.rows.length : ℚ)

theorem get_shap_values_eq (P : ModelArtifacts) (d : DataFrame)
    (hnd : P.features.Nodup) :
    get_shap_values P d =
      sortBySnd (P.features.map (fun f => (f, meanAbsShap P d f))) := by
  have hz : P.features.zip (P.features.map (fun f => meanAbsShap P d f)) =
      P.features.map (fun f => (f, meanAbsShap P d f)) :=
    zip_self_map P.features _
  have hkeys : ((P.features.map (fun f => (f, meanAbsShap P d f))).map Prod.fst).Nodup := by
    simpa [List.map_map, Function.comp_def] using hnd
  show sortBySnd (buildDict _) = _
  rw [show (P.features.map (fun f =>
      ((d.rows.map (fun r =>
        |P.shap_value (P.features.map (fun c => assocGet r c)) f|)).sum
        / (d.rows.length : ℚ)))) = P.features.map (fun f => meanAbsShap P d f) from rfl,
    hz, buildDict_of_nodup _ hkeys]

/-- C8: every produced report's attribution section has as keys exactly the
provider's configured feature list (it is a permutation of the pairs
(feature, mean absolute attribution), so no key is added or dropped), each
value is the mean of the absolute per-record attribution values of that
feature, and the section is ordered ascending by value.  (The empty batch is
excluded: there the mean is undefined.) -/
theorem C8_attribution_exact_keys_sorted (S : StatsLib) (P : ModelArtifacts)
    (data : DataFrame) (r : Report) (h : (metrics S P data).2 = some r)
    (hnd : P.features.Nodup) (_hne : data.rows ≠ []) :
    ∃ l, r.lookup "shap" = some (RVal.shap l) ∧
      l.Perm (P.features.map (fun f => (f, meanAbsShap P (metricsFrame P data) f))) ∧
      l.Pairwise (fun a b => a.2 ≤ b.2) := by
  refine ⟨get_shap_values P (metricsFrame P data),
    metricsReport_lookup_shap S P data r h, ?_, ?_⟩
  · rw [get_shap_values_eq P _ hnd]
    exact perm_sortBySnd _
  · rw [get_shap_values_eq P _ hnd]
    exact pairwise_le_sortBySnd _

/-- Witness for C8 at a concrete batch. -/
theorem C8_attribution_exact_keys_sorted_witness :
    ∃ l, (metricsTail SFix PFix (metricsFrame PFix dfU)).lookup "shap" =
        some (RVal.shap l) ∧
      l.Perm (PFix.features.map (fun f => (f, meanAbsShap PFix (metricsFrame PFix dfU) f))) ∧
      l.Pairwise (fun a b => a.2 ≤ b.2) :=
  C8_attribution_exact_keys_sorted SFix PFix dfU _ rfl (by decide) (by decide)

/-- C10: every value of the attribution section of a produced report is
non-negative, being a mean of absolute values (nonempty batch: on an empty
one the underlying mean is undefined). -/
theorem C10_attribution_values_nonneg (S : StatsLib) (P : ModelArtifacts)
    (data : DataFrame) (r : Report) (l : List (String × ℚ))
    (h : (metrics S P data).2 = some r)
    (hl : r.lookup "shap" = some (RVal.shap l)) (_hne : data.rows ≠ []) :
    ∀ p ∈ l, 0 ≤ p.2 := by
  have hs := metricsReport_lookup_shap S P data r h
  rw [hl] at hs
  have hleq : l = get_shap_values P (metricsFrame P data) := by
    simpa using hs
  subst hleq
  intro p hp
  have hp1 : p ∈ buildDict (P.features.zip
      (P.features.map (fun f =>
        ((metricsFrame P data).rows.map (fun r =>
          |P.shap_value (P.features.map (fun c => assocGet r c)) f|)).sum
          / (((metricsFrame P data).rows.length : ℕ) : ℚ)))) := by
    have := (perm_sortBySnd _).subset hp
    simpa [get_shap_values] using (perm_sortBySnd _).subset hp
  have hp2 := mem_buildDict _ _ hp1
  rcases List.of_mem_zip hp2 with ⟨_, hval⟩
  rcases List.mem_map.mp hval with ⟨f, _, hfeq⟩
  have hnn : 0 ≤ ((metricsFrame P data).rows.map (fun r =>
      |P.shap_value (P.features.map (fun c => assocGet r c)) f|)).sum
      / (((metricsFrame P data).rows.length : ℕ) : ℚ) := by
    apply div_nonneg
    · apply List.sum_nonneg
      intro x hx
      rcases List.mem_map.mp hx with ⟨row, _, rfl⟩
      exact abs_nonneg _
    · exact Nat.cast_nonneg _
  rw [hfeq] at hnn
  exact hnn

/-- Witness for C10 at a concrete batch (stated through `List.all` so the
statement is closed). -/
theorem C10_attribution_values_nonneg_witness :
    (get_shap_values PFix (metricsFrame PFix dfU)).all
      (fun p => decide (0 ≤ p.2)) = true :=
  List.all_eq_true.mpr (fun p hp => decide_eq_true
    (C10_attribution_values_nonneg SFix PFix dfU _ _ rfl rfl (by decide) p hp))

end ConsumerCredit
